import Mathlib

/-!
Shallow embedding of the STREFEX entitlement core:
the plan catalog and account-type override resolver from
`src/services/stripeService.js`, and the subscription store
(state transitions and entitlement evaluator) from
`src/services/featureFlags.js`.

Modelling conventions:
- JS numbers appearing as limits are either finite naturals or the
  `Infinity` sentinel; boolean feature flags live in the same map, so a
  limit value is `LimitValue.bool`, `LimitValue.nat` or `LimitValue.inf`.
- JS objects used as key-value maps (plan limits, override patches,
  dynamic overrides) are association lists; spread-merge
  `\x7b...base, ...patch\x7d` puts the patch entries first so that lookup
  prefers them (last-write-wins per key, as in JS).
- Nullable JS strings (`planId`, `accountType`, promo-code input) are
  `Option String`; `null`/`undefined` is `none`.
- Timestamps are integer milliseconds; `new Date(t) < new Date()` is
  `t < now` where `now` is passed explicitly to every time-reading
  operation.
- The superadmin session check `_isSuperAdmin()` is an explicit boolean
  argument `sa` to each evaluator.
- Display-only plan fields (name, prices, feature description strings,
  storage labels, `popular`, `interval`) are omitted: no claim reads them.
-/

namespace Strefex

/-- A value in a plan's `limits` map: a boolean feature flag, a finite
numeric limit, or the JS `Infinity` sentinel for an unbounded limit. -/
inductive LimitValue where
  | bool (b : Bool)
  | nat (n : Nat)
  | inf
deriving DecidableEq, Repr

/-- A JS object used as a map from limit/feature keys to values,
modelled as an association list (earlier entries win on lookup). -/
abbrev Limits := List (String × LimitValue)

/-- Property lookup `m[k]` on a JS object modelled as an alist. -/
def lookupLimit (m : Limits) (k : String) : Option LimitValue :=
  (m.find? (fun p => p.1 == k)).map (fun p => p.2)

/-- JS spread-merge `\x7b...base, ...patch\x7d`: patch keys override base keys.
Putting the patch first makes `lookupLimit` prefer it. -/
def mergeLimits (base patch : Limits) : Limits :=
  patch ++ base

/- Tier constants from stripeService.js:
`TIERS = \x7bSTART:0, BASIC:1, STANDARD:2, PREMIUM:3, ENTERPRISE:4\x7d`. -/
namespace TIERS

def START : Nat := 0

def BASIC : Nat := 1

def STANDARD : Nat := 2

def PREMIUM : Nat := 3

def ENTERPRISE : Nat := 4

end TIERS

/-- A catalog plan (stripeService.js `PLANS` entries); display-only
fields omitted. -/
structure Plan where
  id : String
  tier : Nat
  sellerOnly : Bool
  limits : Limits
deriving DecidableEq, Repr

/-- The `start` (Free) plan. -/
def startPlan : Plan :=
  { id := "start", tier := TIERS.START, sellerOnly := true,
    limits := [
      ("maxProjects", .nat 3),
      ("maxUsers", .nat 1),
      ("maxAssets", .nat 10),
      ("maxStorageGB", .nat 1),
      ("maxIndustries", .nat 1),
      ("maxCategories", .nat 1),
      ("maxServiceCategories", .nat 1),
      ("basicDashboard", .bool true),
      ("companyProfile", .bool true),
      ("basicAnalytics", .bool false),
      ("advancedReports", .bool false),
      ("customIntegrations", .bool false),
      ("auditManagement", .bool false),
      ("costManagement", .bool false),
      ("productionManagement", .bool false),
      ("productionStandard", .bool false),
      ("enterpriseManagement", .bool false),
      ("teamManagement", .bool false),
      ("messenger", .bool false),
      ("profileContacts", .bool false),
      ("aiInsights", .bool false),
      ("erpIntegrations", .bool false),
      ("procurement", .bool false),
      ("contractManagement", .bool false),
      ("spendAnalysis", .bool false),
      ("complianceEsg", .bool false),
      ("templateLibrary", .bool false),
      ("auditLogs", .bool false),
      ("emailSupport", .bool false),
      ("prioritySupport", .bool false),
      ("multipleIndustries", .bool false),
      ("executiveSummary", .bool false),
      ("projectAuditSchedule", .bool false)
    ] }

/-- The `basic` plan. -/
def basicPlan : Plan :=
  { id := "basic", tier := TIERS.BASIC, sellerOnly := false,
    limits := [
      ("maxProjects", .nat 10),
      ("maxUsers", .nat 5),
      ("maxAssets", .nat 50),
      ("maxStorageGB", .nat 5),
      ("maxIndustries", .inf),
      ("maxCategories", .inf),
      ("maxServiceCategories", .inf),
      ("basicDashboard", .bool true),
      ("companyProfile", .bool true),
      ("basicAnalytics", .bool true),
      ("advancedReports", .bool false),
      ("customIntegrations", .bool false),
      ("auditManagement", .bool false),
      ("costManagement", .bool false),
      ("productionManagement", .bool false),
      ("productionStandard", .bool false),
      ("enterpriseManagement", .bool false),
      ("teamManagement", .bool true),
      ("messenger", .bool false),
      ("profileContacts", .bool false),
      ("aiInsights", .bool false),
      ("erpIntegrations", .bool false),
      ("procurement", .bool false),
      ("contractManagement", .bool false),
      ("spendAnalysis", .bool false),
      ("complianceEsg", .bool false),
      ("templateLibrary", .bool false),
      ("auditLogs", .bool false),
      ("emailSupport", .bool true),
      ("prioritySupport", .bool false),
      ("multipleIndustries", .bool true),
      ("executiveSummary", .bool false),
      ("projectAuditSchedule", .bool false)
    ] }

/-- The `standard` plan. -/
def standardPlan : Plan :=
  { id := "standard", tier := TIERS.STANDARD, sellerOnly := false,
    limits := [
      ("maxProjects", .nat 50),
      ("maxUsers", .nat 25),
      ("maxAssets", .nat 500),
      ("maxStorageGB", .nat 50),
      ("maxIndustries", .inf),
      ("maxCategories", .inf),
      ("maxServiceCategories", .inf),
      ("basicDashboard", .bool true),
      ("companyProfile", .bool true),
      ("basicAnalytics", .bool true),
      ("advancedReports", .bool true),
      ("customIntegrations", .bool false),
      ("auditManagement", .bool false),
      ("costManagement", .bool false),
      ("productionManagement", .bool false),
      ("productionStandard", .bool false),
      ("enterpriseManagement", .bool false),
      ("teamManagement", .bool true),
      ("messenger", .bool false),
      ("profileContacts", .bool false),
      ("aiInsights", .bool false),
      ("erpIntegrations", .bool false),
      ("procurement", .bool false),
      ("contractManagement", .bool false),
      ("spendAnalysis", .bool false),
      ("complianceEsg", .bool false),
      ("templateLibrary", .bool false),
      ("auditLogs", .bool false),
      ("emailSupport", .bool true),
      ("prioritySupport", .bool true),
      ("multipleIndustries", .bool true),
      ("executiveSummary", .bool true),
      ("projectAuditSchedule", .bool false)
    ] }

/-- The `premium` plan. -/
def premiumPlan : Plan :=
  { id := "premium", tier := TIERS.PREMIUM, sellerOnly := false,
    limits := [
      ("maxProjects", .inf),
      ("maxUsers", .inf),
      ("maxAssets", .inf),
      ("maxStorageGB", .nat 100),
      ("storagePerUser", .bool true),
      ("maxIndustries", .inf),
      ("maxCategories", .inf),
      ("maxServiceCategories", .inf),
      ("basicDashboard", .bool true),
      ("companyProfile", .bool true),
      ("basicAnalytics", .bool true),
      ("advancedReports", .bool true),
      ("customIntegrations", .bool true),
      ("auditManagement", .bool true),
      ("costManagement", .bool true),
      ("productionManagement", .bool true),
      ("productionStandard", .bool true),
      ("enterpriseManagement", .bool false),
      ("teamManagement", .bool true),
      ("messenger", .bool true),
      ("profileContacts", .bool true),
      ("aiInsights", .bool false),
      ("erpIntegrations", .bool false),
      ("procurement", .bool false),
      ("contractManagement", .bool false),
      ("spendAnalysis", .bool false),
      ("complianceEsg", .bool false),
      ("templateLibrary", .bool false),
      ("auditLogs", .bool false),
      ("emailSupport", .bool true),
      ("prioritySupport", .bool true),
      ("multipleIndustries", .bool true),
      ("executiveSummary", .bool true),
      ("projectAuditSchedule", .bool true)
    ] }

/-- The `enterprise` plan. -/
def enterprisePlan : Plan :=
  { id := "enterprise", tier := TIERS.ENTERPRISE, sellerOnly := false,
    limits := [
      ("maxProjects", .inf),
      ("maxUsers", .inf),
      ("maxAssets", .inf),
      ("maxStorageGB", .nat 500),
      ("storagePerUser", .bool true),
      ("maxIndustries", .inf),
      ("maxCategories", .inf),
      ("maxServiceCategories", .inf),
      ("basicDashboard", .bool true),
      ("companyProfile", .bool true),
      ("basicAnalytics", .bool true),
      ("advancedReports", .bool true),
      ("customIntegrations", .bool true),
      ("auditManagement", .bool true),
      ("costManagement", .bool true),
      ("productionManagement", .bool true),
      ("productionStandard", .bool true),
      ("enterpriseManagement", .bool true),
      ("teamManagement", .bool true),
      ("messenger", .bool true),
      ("profileContacts", .bool true),
      ("aiInsights", .bool true),
      ("erpIntegrations", .bool true),
      ("procurement", .bool true),
      ("contractManagement", .bool true),
      ("spendAnalysis", .bool true),
      ("complianceEsg", .bool true),
      ("templateLibrary", .bool true),
      ("auditLogs", .bool true),
      ("emailSupport", .bool true),
      ("prioritySupport", .bool true),
      ("multipleIndustries", .bool true),
      ("executiveSummary", .bool true),
      ("projectAuditSchedule", .bool true)
    ] }

/-- The plan catalog, in ascending tier order (stripeService.js `PLANS`). -/
def PLANS : List Plan :=
  [startPlan, basicPlan, standardPlan, premiumPlan, enterprisePlan]

/-- Buyer limit overrides, per plan id (stripeService.js
`BUYER_LIMIT_OVERRIDES`). -/
def BUYER_LIMIT_OVERRIDES : List (String × Limits) :=
  [ ("basic",
      [("maxIndustries", .nat 1), ("maxCategories", .nat 1),
       ("multipleIndustries", .bool false)]),
    ("standard",
      [("maxIndustries", .nat 3), ("maxCategories", .nat 3),
       ("executiveSummary", .bool true)]),
    ("premium", []),
    ("enterprise", []) ]

/-- Service-provider limit overrides, per plan id (stripeService.js
`SERVICE_PROVIDER_LIMIT_OVERRIDES`). -/
def SERVICE_PROVIDER_LIMIT_OVERRIDES : List (String × Limits) :=
  [ ("start",
      [("maxIndustries", .nat 0), ("maxCategories", .nat 0),
       ("maxServiceCategories", .nat 1), ("multipleIndustries", .bool false),
       ("executiveSummary", .bool false)]),
    ("basic",
      [("maxIndustries", .nat 0), ("maxCategories", .nat 0),
       ("maxServiceCategories", .inf), ("executiveSummary", .bool false)]),
    ("standard",
      [("maxIndustries", .nat 0), ("maxCategories", .nat 0),
       ("maxServiceCategories", .inf), ("executiveSummary", .bool false)]),
    ("premium",
      [("maxIndustries", .nat 0), ("maxCategories", .nat 0),
       ("maxServiceCategories", .inf)]),
    ("enterprise",
      [("maxIndustries", .nat 0), ("maxCategories", .nat 0),
       ("maxServiceCategories", .inf)]) ]

/-- Index lookup `table[planId]` on a per-plan override table; a `none`
plan id (JS null/undefined index) misses, and `|| \x7b\x7d` turns a miss into
the empty patch. -/
def overridePatchFor (table : List (String × Limits)) (planId : Option String) :
    Limits :=
  match planId with
  | none => []
  | some pid => ((table.find? (fun p => p.1 == pid)).map (fun p => p.2)).getD []

/-- `getPlanById(planId)`: `PLANS.find(p => p.id === planId) || PLANS[0]`.
Total — an unrecognized or null id falls back to the first (start) plan. -/
def getPlanById (planId : Option String) : Plan :=
  (PLANS.find? (fun p => some p.id == planId)).getD startPlan

/-- `getEffectiveLimits(planId, accountType)` from stripeService.js:
buyers merge the buyer patch; service providers merge their patch and
additionally force `executiveSummary = false`; everyone else (sellers and
unknown/null account types) gets the base limits with
`executiveSummary = false` forced. -/
def getEffectiveLimits (planId accountType : Option String) : Limits :=
  let base := (getPlanById planId).limits
  if accountType = some "buyer" then
    mergeLimits base (overridePatchFor BUYER_LIMIT_OVERRIDES planId)
  else if accountType = some "service_provider" then
    mergeLimits (mergeLimits base
        (overridePatchFor SERVICE_PROVIDER_LIMIT_OVERRIDES planId))
      [("executiveSummary", .bool false)]
  else
    mergeLimits base [("executiveSummary", .bool false)]

/-- `getTierLevel(planId)`: the tier of the resolved plan. The source's
`plan.tier ?? TIERS.START` fallback is unreachable because `getPlanById`
always returns a catalog plan and every catalog plan defines `tier`. -/
def getTierLevel (planId : Option String) : Nat :=
  (getPlanById planId).tier

/-- `BUYER_TRIAL_DAYS = 30`. -/
def BUYER_TRIAL_DAYS : Nat := 30

/-- One day in milliseconds (`24 * 60 * 60 * 1000`). -/
def dayMs : Int := 24 * 60 * 60 * 1000

/-- A promo-code grant (featureFlags.js `PROMO_CODES` entry). -/
structure PromoConfig where
  trialDays : Nat
  planId : String
deriving DecidableEq, Repr

/-- The promo grant table (featureFlags.js `PROMO_CODES`); the
display-only `description` strings are omitted. -/
def PROMO_CODES : List (String × PromoConfig) :=
  [ ("STREFEX30", { trialDays := 30, planId := "basic" }),
    ("STREFEX60", { trialDays := 60, planId := "basic" }),
    ("STREFEX90", { trialDays := 90, planId := "basic" }),
    ("STREFEXPRO", { trialDays := 30, planId := "standard" }),
    ("STREFEXPRO60", { trialDays := 60, planId := "standard" }),
    ("STREFEXPREM", { trialDays := 30, planId := "premium" }),
    ("STREFEXVIP", { trialDays := 90, planId := "premium" }) ]

/-- `getPromoConfig(code)`: `PROMO_CODES[code] || null`. -/
def getPromoConfig (code : String) : Option PromoConfig :=
  (PROMO_CODES.find? (fun p => p.1 == code)).map (fun p => p.2)

/-- JS whitespace for `String.prototype.trim` (the characters that occur
in this codebase's inputs). -/
def isJsSpace (c : Char) : Bool :=
  c = ' ' || c = '\t' || c = '\n' || c = '\r'

/-- JS `code.trim()`: strip leading and trailing whitespace. -/
def jsTrim (s : String) : String :=
  ⟨((s.toList.dropWhile isJsSpace).reverse.dropWhile isJsSpace).reverse⟩

/-- JS `code.toUpperCase()` (ASCII). -/
def jsToUpper (s : String) : String :=
  ⟨s.toList.map Char.toUpper⟩

/-- The in-memory subscription store state (featureFlags.js
`useSubscriptionStore` fields). `trialEndsAt` is a millisecond
timestamp or `none` (JS null). -/
structure SubState where
  planId : Option String
  accountType : Option String
  status : String
  trialEndsAt : Option Int
  billingPeriod : String
  overrides : Limits
  promoCode : Option String
deriving DecidableEq, Repr

/-- The store's initial state when nothing is persisted: plan `start`,
account type `seller`, status `active`. -/
def initState : SubState :=
  { planId := some "start", accountType := some "seller", status := "active",
    trialEndsAt := none, billingPeriod := "monthly", overrides := [],
    promoCode := none }

/-- `setPlan(planId, status = 'active', trialEndsAt = null)`: sets the
three fields and leaves the rest unchanged. Callers relying on the JS
defaults pass `"active"` and `none` here explicitly. -/
def setPlan (s : SubState) (planId : Option String) (status : String)
    (trialEndsAt : Option Int) : SubState :=
  { s with planId := planId, status := status, trialEndsAt := trialEndsAt }

/-- `setAccountType(accountType)`. -/
def setAccountType (s : SubState) (accountType : Option String) : SubState :=
  { s with accountType := accountType }

/-- `setBillingPeriod(billingPeriod)`. -/
def setBillingPeriod (s : SubState) (billingPeriod : String) : SubState :=
  { s with billingPeriod := billingPeriod }

/-- `startTrial()`: enterprise plan, status `trialing`, trial ends 14
days from now. -/
def startTrial (now : Int) (s : SubState) : SubState :=
  { s with
    planId := some "enterprise", status := "trialing",
    trialEndsAt := some (now + 14 * dayMs) }

/-- `startBuyerTrial(days = BUYER_TRIAL_DAYS)`: basic plan, status
`trialing`, account type forced to `buyer`, trial ends `days` days from
now. (The source writes `billingPeriod:'monthly'` into the persisted
copy but does not change it in the in-memory state, which is the
authority; the in-memory update is modelled.) -/
def startBuyerTrial (now : Int) (s : SubState) (days : Nat) : SubState :=
  { s with
    planId := some "basic", status := "trialing",
    trialEndsAt := some (now + (days : Int) * dayMs),
    accountType := some "buyer" }

/-- `extendTrial(extraDays)`: extend from the current trial end if it is
in the future, otherwise from now; status becomes `trialing`. -/
def extendTrial (now : Int) (s : SubState) (extraDays : Nat) : SubState :=
  let current := s.trialEndsAt.getD now
  let base := if current > now then current else now
  { s with
    status := "trialing",
    trialEndsAt := some (base + (extraDays : Int) * dayMs) }

/-- `applyPromoCode(code)`: normalize (`(code || '').trim().toUpperCase()`),
reject the empty string and unknown codes with no state change; a known
code sets the promo's plan (falling back to the current plan if the
promo's plan id is falsy), a fresh trial window when the promo grants
trial days, status `trialing` when it does, and records the normalized
code. Returns the acceptance flag with the resulting state. -/
def applyPromoCode (now : Int) (s : SubState) (code : Option String) :
    Bool × SubState :=
  let normalized := jsToUpper (jsTrim (code.getD ""))
  if normalized = "" then (false, s)
  else
    match getPromoConfig normalized with
    | none => (false, s)
    | some promo =>
        let trialEndsAt :=
          if promo.trialDays ≠ 0 then
            some (now + (promo.trialDays : Int) * dayMs)
          else s.trialEndsAt
        let planId := if promo.planId ≠ "" then some promo.planId else s.planId
        let status := if promo.trialDays ≠ 0 then "trialing" else s.status
        (true,
          { s with
            planId := planId, status := status,
            trialEndsAt := trialEndsAt, promoCode := some normalized })

/-- `downgrade()`: buyers fall back to `basic` with status
`trial_expired`; every other account type falls back to `start` with
status `active`; `trialEndsAt`, `overrides` and `promoCode` are cleared
and `billingPeriod` reset to `monthly`; `accountType` is unchanged. -/
def downgrade (s : SubState) : SubState :=
  let fallbackPlan := if s.accountType = some "buyer" then "basic" else "start"
  { planId := some fallbackPlan,
    accountType := s.accountType,
    status := if s.accountType = some "buyer" then "trial_expired" else "active",
    trialEndsAt := none,
    billingPeriod := "monthly",
    overrides := [],
    promoCode := none }

/-- `setOverrides(overrides)`. -/
def setOverrides (s : SubState) (overrides : Limits) : SubState :=
  { s with overrides := overrides }

/-- The expired-trial test `trialEndsAt && new Date(trialEndsAt) < new Date()`:
the trial end is set and strictly before `now`. -/
def trialHasExpired (now : Int) (trialEndsAt : Option Int) : Bool :=
  match trialEndsAt with
  | none => false
  | some t => t < now

/-- The minimal baseline allowlist used for `trial_expired`/`canceled`
states inside `hasFeature`. -/
def baselineAllowlist : Limits :=
  [("basicDashboard", .bool true), ("companyProfile", .bool true)]

/-- `hasFeature(featureKey)`: superadmin bypass; expired-trial
auto-downgrade (returns `false` after downgrading); baseline allowlist
for `trial_expired`/`canceled`; dynamic overrides take precedence; else
the effective limit for the key, defaulting to `false`. Returns the
JS value together with the (possibly downgraded) state. -/
def hasFeature (sa : Bool) (now : Int) (s : SubState) (featureKey : String) :
    LimitValue × SubState :=
  if sa then (.bool true, s)
  else if s.status = "trialing" ∧ trialHasExpired now s.trialEndsAt then
    (.bool false, downgrade s)
  else if s.status = "trial_expired" ∨ s.status = "canceled" then
    ((lookupLimit baselineAllowlist featureKey).getD (.bool false), s)
  else
    match lookupLimit s.overrides featureKey with
    | some v => (v, s)
    | none =>
        ((lookupLimit (getEffectiveLimits s.planId s.accountType)
            featureKey).getD (.bool false), s)

/-- `hasTier(requiredTier)`: superadmin bypass; expired-trial
auto-downgrade then compare the START tier; `trial_expired`/`canceled`
compare the START tier; else compare the current plan's tier level. -/
def hasTier (sa : Bool) (now : Int) (s : SubState) (requiredTier : Nat) :
    Bool × SubState :=
  if sa then (true, s)
  else if s.status = "trialing" ∧ trialHasExpired now s.trialEndsAt then
    (decide (TIERS.START ≥ requiredTier), downgrade s)
  else if s.status = "trial_expired" ∨ s.status = "canceled" then
    (decide (TIERS.START ≥ requiredTier), s)
  else
    (decide (getTierLevel s.planId ≥ requiredTier), s)

/-- JS `currentCount < max` after the `undefined`/`Infinity` guard:
numeric comparison, with JS coercing a boolean limit to 0 or 1. -/
def jsLtNum (currentCount : Nat) : LimitValue → Bool
  | .nat n => decide (currentCount < n)
  | .inf => true
  | .bool b => decide (currentCount < (if b then 1 else 0))

/-- `withinLimit(limitKey, currentCount)`: superadmin bypass; absent or
`Infinity` limit allows; else strict `currentCount < limit`. Note: no
expired-trial check is performed and the state is not changed. -/
def withinLimit (sa : Bool) (s : SubState) (limitKey : String)
    (currentCount : Nat) : Bool :=
  if sa then true
  else
    match lookupLimit (getEffectiveLimits s.planId s.accountType) limitKey with
    | none => true
    | some .inf => true
    | some v => jsLtNum currentCount v

/-- `isTrial()`: status `trialing` with a trial end strictly in the
future; read-only. -/
def isTrial (now : Int) (s : SubState) : Bool :=
  if s.status ≠ "trialing" then false
  else
    match s.trialEndsAt with
    | none => false
    | some t => now < t

/-- The Subscription State invariant from the spec:
`status == trialing` implies `trialEndsAt != null`. -/
def trialingInv (s : SubState) : Prop :=
  s.status = "trialing" → s.trialEndsAt ≠ none

instance (s : SubState) : Decidable (trialingInv s) := by
  unfold trialingInv; infer_instance

/-- A buyer one day past the end of a basic-plan trial (times in ms:
trial ended at 0, now is one day later). -/
def buyerExpiredTrial : SubState :=
  { planId := some "basic", accountType := some "buyer",
    status := "trialing", trialEndsAt := some 0,
    billingPeriod := "monthly", overrides := [], promoCode := none }

/-- A seller past the end of an enterprise trial. -/
def sellerExpiredEnterpriseTrial : SubState :=
  { planId := some "enterprise", accountType := some "seller",
    status := "trialing", trialEndsAt := some 0,
    billingPeriod := "monthly", overrides := [], promoCode := none }

end Strefex

namespace Strefex

/-- C4: for every plan in the catalog, the effective limits for both a
`seller` and a `service_provider` account map `executiveSummary` to
`false`, regardless of the plan's own `executiveSummary` value (which is
`true` for standard, premium and enterprise). -/
theorem C4_executiveSummary_false_for_seller_and_service_provider :
    ∀ p ∈ PLANS,
      lookupLimit (getEffectiveLimits (some p.id) (some "seller"))
          "executiveSummary" = some (.bool false) ∧
        lookupLimit (getEffectiveLimits (some p.id) (some "service_provider"))
          "executiveSummary" = some (.bool false) := by
  decide

/-- Witness for C4 at the standard plan (whose own `executiveSummary`
is `true`). -/
theorem C4_witness :
    lookupLimit (getEffectiveLimits (some "standard") (some "seller"))
        "executiveSummary" = some (.bool false) ∧
      lookupLimit (getEffectiveLimits (some "standard") (some "service_provider"))
        "executiveSummary" = some (.bool false) :=
  C4_executiveSummary_false_for_seller_and_service_provider standardPlan
    (by decide)

/-- C5: `downgrade()` sends a buyer to the basic plan with status
`trial_expired` and every other account type to the start plan with
status `active`; in both cases the trial end, overrides and promo code
are cleared, billing resets to monthly, and the account type is kept. -/
theorem C5_downgrade_accountType_aware_fallback :
    ∀ s : SubState,
      (s.accountType = some "buyer" →
        downgrade s =
          { planId := some "basic", accountType := s.accountType,
            status := "trial_expired", trialEndsAt := none,
            billingPeriod := "monthly", overrides := [], promoCode := none }) ∧
      (s.accountType ≠ some "buyer" →
        downgrade s =
          { planId := some "start", accountType := s.accountType,
            status := "active", trialEndsAt := none,
            billingPeriod := "monthly", overrides := [], promoCode := none }) := by
  intro s
  constructor <;> intro h <;> simp [downgrade, h]

/-- Witness for C5 at a buyer state and at the (seller) initial state. -/
theorem C5_witness :
    downgrade buyerExpiredTrial =
      { planId := some "basic", accountType := some "buyer",
        status := "trial_expired", trialEndsAt := none,
        billingPeriod := "monthly", overrides := [], promoCode := none } ∧
    downgrade initState =
      { planId := some "start", accountType := some "seller",
        status := "active", trialEndsAt := none,
        billingPeriod := "monthly", overrides := [], promoCode := none } :=
  ⟨(C5_downgrade_accountType_aware_fallback buyerExpiredTrial).1 rfl,
   (C5_downgrade_accountType_aware_fallback initState).2 (by decide)⟩

/-- C6: `applyPromoCode('STREFEX30')` succeeds on every prior state and
yields the basic plan, status `trialing`, a trial ending 30 days from
now and the recorded code, leaving account type, billing period and
overrides unchanged. -/
theorem C6_applyPromoCode_STREFEX30 :
    ∀ (now : Int) (s : SubState),
      applyPromoCode now s (some "STREFEX30") =
        (true,
          { s with
            planId := some "basic", status := "trialing",
            trialEndsAt := some (now + 30 * dayMs),
            promoCode := some "STREFEX30" }) := by
  intro now s
  have hn : jsToUpper (jsTrim "STREFEX30") = "STREFEX30" := rfl
  have hc : getPromoConfig "STREFEX30"
      = some { trialDays := 30, planId := "basic" } := rfl
  simp [applyPromoCode, hn, hc]

/-- C7: `applyPromoCode` normalizes its input by trim + uppercase; every
input whose normalized form is not a promo-table key (the empty string
included) is rejected with `false` and the state unchanged. Totality
(never throws) holds by construction of the embedding. -/
theorem C7_applyPromoCode_unknown_code_rejected :
    ∀ (now : Int) (s : SubState) (code : Option String),
      getPromoConfig (jsToUpper (jsTrim (code.getD ""))) = none →
      applyPromoCode now s code = (false, s) := by
  intro now s code hmiss
  by_cases h0 : jsToUpper (jsTrim (code.getD "")) = ""
  · simp [applyPromoCode, h0]
  · simp [applyPromoCode, h0, hmiss]

/-- Witness for C7 at the code `BOGUS`. -/
theorem C7_witness :
    applyPromoCode 0 initState (some "BOGUS") = (false, initState) :=
  C7_applyPromoCode_unknown_code_rejected 0 initState (some "BOGUS") (by decide)

/-- C8: `withinLimit` always allows a superadmin; for everyone else an
absent or `Infinity` effective limit allows, and a finite numeric limit
allows exactly when the current count is strictly below it; on the
free/start seller plan (`maxProjects = 3`) count 3 is denied and count 2
allowed. -/
theorem C8_withinLimit_strict_capacity :
    (∀ (s : SubState) (k : String) (n : Nat), withinLimit true s k n = true) ∧
      (∀ (s : SubState) (k : String) (n : Nat),
        lookupLimit (getEffectiveLimits s.planId s.accountType) k = none →
        withinLimit false s k n = true) ∧
      (∀ (s : SubState) (k : String) (n : Nat),
        lookupLimit (getEffectiveLimits s.planId s.accountType) k
            = some LimitValue.inf →
        withinLimit false s k n = true) ∧
      (∀ (s : SubState) (k : String) (n m : Nat),
        lookupLimit (getEffectiveLimits s.planId s.accountType) k
            = some (LimitValue.nat m) →
        (withinLimit false s k n = true ↔ n < m)) ∧
      withinLimit false initState "maxProjects" 3 = false ∧
      withinLimit false initState "maxProjects" 2 = true := by
  refine ⟨?_, ?_, ?_, ?_, by decide, by decide⟩
  · intro s k n
    simp [withinLimit]
  · intro s k n h
    simp [withinLimit, h]
  · intro s k n h
    simp [withinLimit, h]
  · intro s k n m h
    simp [withinLimit, h, jsLtNum]

/-- Witness for C8: the superadmin bypass, an unconstrained key, the
unbounded sentinel and a finite limit, each at a concrete input. -/
theorem C8_witness :
    withinLimit true initState "maxProjects" 999 = true ∧
      withinLimit false initState "unknownKey" 999 = true ∧
      withinLimit false
        { initState with planId := some "premium" } "maxProjects" 999 = true ∧
      (withinLimit false initState "maxUsers" 0 = true ↔ 0 < 1) :=
  ⟨C8_withinLimit_strict_capacity.1 initState "maxProjects" 999,
   C8_withinLimit_strict_capacity.2.1 initState "unknownKey" 999 (by decide),
   C8_withinLimit_strict_capacity.2.2.1
     { initState with planId := some "premium" } "maxProjects" 999 (by decide),
   C8_withinLimit_strict_capacity.2.2.2.1 initState "maxUsers" 0 1 (by decide)⟩

/-- C9: `getPlanById` returns the matching catalog plan for a known id
and falls back to the start plan for every unrecognized id, null
included; `getTierLevel` of an unrecognized id is therefore 0. -/
theorem C9_getPlanById_total_with_start_fallback :
    (∀ p ∈ PLANS, getPlanById (some p.id) = p) ∧
      ∀ id : Option String, id ∉ PLANS.map (fun p => some p.id) →
        getPlanById id = startPlan ∧ getTierLevel id = 0 := by
  constructor
  · decide
  · intro id hid
    have hfind : PLANS.find? (fun p => some p.id == id) = none := by
      rw [List.find?_eq_none]
      intro p hp hbeq
      exact hid (List.mem_map.mpr ⟨p, hp, by simpa using hbeq⟩)
    constructor
    · simp [getPlanById, hfind]
    · simp [getTierLevel, getPlanById, hfind, startPlan, TIERS.START]

/-- Witness for C9 at a known id and at the null id. -/
theorem C9_witness :
    getPlanById (some "premium") = premiumPlan ∧
      getPlanById none = startPlan ∧ getTierLevel none = 0 :=
  ⟨C9_getPlanById_total_with_start_fallback.1 premiumPlan (by decide),
   C9_getPlanById_total_with_start_fallback.2 none (by decide)⟩

/-- C10: for every account type other than `buyer` and
`service_provider` — unknown strings and null alike — the effective
limits equal the seller result: the base plan limits with no override
patch and `executiveSummary` forced to `false`. -/
theorem C10_unknown_accountType_behaves_as_seller :
    ∀ (planId a : Option String),
      a ≠ some "buyer" → a ≠ some "service_provider" →
      getEffectiveLimits planId a = getEffectiveLimits planId (some "seller") ∧
        getEffectiveLimits planId a =
          mergeLimits (getPlanById planId).limits
            [("executiveSummary", .bool false)] := by
  intro planId a hb hsp
  constructor <;> simp [getEffectiveLimits, hb, hsp]

/-- C1 counterexample: on a buyer state one day past the trial end,
`hasFeature('basicDashboard')` returns `false`, although the
post-downgrade state (status `trial_expired`) answers `true` for
`basicDashboard` under the baseline-allowlist rule — so the call does
not return the answer computed from the post-downgrade state. -/
theorem C1_counterexample :
    (hasFeature false 86400000 buyerExpiredTrial "basicDashboard").1
        = LimitValue.bool false ∧
      (hasFeature false 86400000 buyerExpiredTrial "basicDashboard").2
        = downgrade buyerExpiredTrial ∧
      (hasFeature false 86400000 (downgrade buyerExpiredTrial)
          "basicDashboard").1 = LimitValue.bool true := by
  refine ⟨rfl, rfl, rfl⟩

/-- C1 (amended): on a non-superadmin state with status `trialing` and a
trial end strictly in the past, `hasFeature` invokes `downgrade()` and
then returns `false` unconditionally for every feature key — it does not
re-evaluate against the post-downgrade state, so the answer coincides
with the post-downgrade one only for keys that are denied there. -/
theorem C1_hasFeature_expired_downgrades_then_denies :
    ∀ (now t : Int) (s : SubState) (key : String),
      s.status = "trialing" → s.trialEndsAt = some t → t < now →
      hasFeature false now s key = (LimitValue.bool false, downgrade s) := by
  intro now t s key hs ht hlt
  simp [hasFeature, hs, ht, trialHasExpired, hlt]

/-- Witness for C1 at the expired buyer trial state. -/
theorem C1_witness :
    hasFeature false 86400000 buyerExpiredTrial "multipleIndustries"
      = (LimitValue.bool false, downgrade buyerExpiredTrial) :=
  C1_hasFeature_expired_downgrades_then_denies 86400000 0 buyerExpiredTrial
    "multipleIndustries" rfl rfl (by decide)

/-- C2 counterexample: `withinLimit` performs no expiry transition. On a
seller state whose enterprise trial has expired it allows
`maxProjects` at count 5 using the stale enterprise limits (unbounded),
while the post-downgrade start plan (`maxProjects = 3`) would deny it;
the state is left untouched by construction (`withinLimit` returns only
a boolean). -/
theorem C2_counterexample :
    withinLimit false sellerExpiredEnterpriseTrial "maxProjects" 5 = true ∧
      withinLimit false (downgrade sellerExpiredEnterpriseTrial)
        "maxProjects" 5 = false := by
  refine ⟨rfl, rfl⟩

/-- C2 (amended): on an expired `trialing` state, `hasFeature` and
`hasTier` do transition the status via `downgrade()` before returning
(and the downgraded status is no longer `trialing`), but `withinLimit`
performs no expiry check: it computes its decision from the current,
possibly expired, plan's effective limits and never changes the state. -/
theorem C2_hasFeature_hasTier_transition_on_expiry :
    ∀ (now t : Int) (s : SubState) (key : String) (r : Nat),
      s.status = "trialing" → s.trialEndsAt = some t → t < now →
      (hasFeature false now s key).2 = downgrade s ∧
        (hasTier false now s r).2 = downgrade s ∧
        (downgrade s).status ≠ "trialing" := by
  intro now t s key r hs ht hlt
  refine ⟨?_, ?_, ?_⟩
  · simp [hasFeature, hs, ht, trialHasExpired, hlt]
  · simp [hasTier, hs, ht, trialHasExpired, hlt]
  · by_cases hb : s.accountType = some "buyer" <;> simp [downgrade, hb]

/-- Witness for C2 at the expired enterprise seller trial. -/
theorem C2_witness :
    (hasFeature false 86400000 sellerExpiredEnterpriseTrial "auditManagement").2
        = downgrade sellerExpiredEnterpriseTrial ∧
      (hasTier false 86400000 sellerExpiredEnterpriseTrial 2).2
        = downgrade sellerExpiredEnterpriseTrial ∧
      (downgrade sellerExpiredEnterpriseTrial).status ≠ "trialing" :=
  C2_hasFeature_hasTier_transition_on_expiry 86400000 0
    sellerExpiredEnterpriseTrial "auditManagement" 2 rfl rfl (by decide)

/-- C3 counterexample: the initial state satisfies the invariant, but
`setPlan` called with status `trialing` and a null `trialEndsAt` (the
source's default argument) produces a state violating
`status == trialing ⇒ trialEndsAt != null`. -/
theorem C3_counterexample :
    trialingInv initState ∧
      ¬ trialingInv (setPlan initState (some "premium") "trialing" none) := by
  refine ⟨by decide, by decide⟩

/-- C3 (amended): the invariant `status == trialing ⇒ trialEndsAt != null`
is preserved by setAccountType, setBillingPeriod, startTrial,
startBuyerTrial, extendTrial, applyPromoCode, downgrade and setOverrides
for every argument, and by setPlan exactly for those arguments with
status ≠ `trialing` or a non-null trialEndsAt; setPlan with status
`trialing` and null trialEndsAt (the source's defaulted third argument)
violates it. -/
theorem C3_trialingInv_preservation :
    ∀ s : SubState, trialingInv s →
      (∀ (pid : Option String) (st : String) (te : Option Int),
        (st ≠ "trialing" ∨ te ≠ none) → trialingInv (setPlan s pid st te)) ∧
      (∀ a : Option String, trialingInv (setAccountType s a)) ∧
      (∀ bp : String, trialingInv (setBillingPeriod s bp)) ∧
      (∀ now : Int, trialingInv (startTrial now s)) ∧
      (∀ (now : Int) (days : Nat), trialingInv (startBuyerTrial now s days)) ∧
      (∀ (now : Int) (extraDays : Nat),
        trialingInv (extendTrial now s extraDays)) ∧
      (∀ (now : Int) (code : Option String),
        trialingInv (applyPromoCode now s code).2) ∧
      trialingInv (downgrade s) ∧
      (∀ ov : Limits, trialingInv (setOverrides s ov)) := by
  intro s hinv
  refine ⟨?_, ?_, ?_, ?_, ?_, ?_, ?_, ?_, ?_⟩
  · intro pid st te hok
    intro hst
    rcases hok with h | h
    · exact absurd hst h
    · exact h
  · intro a
    simpa [trialingInv, setAccountType] using hinv
  · intro bp
    simpa [trialingInv, setBillingPeriod] using hinv
  · intro now
    simp [trialingInv, startTrial]
  · intro now days
    simp [trialingInv, startBuyerTrial]
  · intro now extraDays
    simp [trialingInv, extendTrial]
  · intro now code
    by_cases h0 : jsToUpper (jsTrim (code.getD "")) = ""
    · simpa [applyPromoCode, h0] using hinv
    · cases hpc : getPromoConfig (jsToUpper (jsTrim (code.getD ""))) with
      | none => simpa [applyPromoCode, h0, hpc] using hinv
      | some promo =>
          by_cases hd : promo.trialDays = 0
          · simpa [applyPromoCode, h0, hpc, hd, trialingInv] using hinv
          · simp [applyPromoCode, h0, hpc, hd, trialingInv]
  · by_cases hb : s.accountType = some "buyer" <;>
      simp [trialingInv, downgrade, hb]
  · intro ov
    simpa [trialingInv, setOverrides] using hinv

/-- Witness for C3 at the initial state. -/
theorem C3_witness :
    trialingInv (setPlan initState (some "premium") "active" none) ∧
      trialingInv (downgrade initState) :=
  ⟨(C3_trialingInv_preservation initState (by decide)).1 (some "premium")
      "active" none (Or.inl (by decide)),
   (C3_trialingInv_preservation initState (by decide)).2.2.2.2.2.2.2.1⟩

/-- Witness for C10 at a null account type on the basic plan. -/
theorem C10_witness :
    getEffectiveLimits (some "basic") none =
      getEffectiveLimits (some "basic") (some "seller") ∧
      getEffectiveLimits (some "basic") none =
        mergeLimits (getPlanById (some "basic")).limits
          [("executiveSummary", .bool false)] :=
  C10_unknown_accountType_behaves_as_seller (some "basic") none (by decide)
    (by decide)

end Strefex
